import Mathlib

/-!
Verification of the social-chat backend in `src/main.py`.

The Python module keeps four in-memory dictionaries (`users_db`, `friends_db`,
`friend_requests_db`, `conversations_db`) plus a `ConnectionManager` holding the
map of live websocket connections.  We embed each Python `dict` as an
association list with at-most-one entry per key (`dictInsert` erases the old
entry, exactly like Python assignment `d[k] = v`), and each HTTP endpoint as a
pure function from a `ServerState` to a new `ServerState` together with the
list of websocket send attempts it performs and an `ApiResult` mirroring the
returned value, a raised `HTTPException`, or a raised `KeyError`.

The two websocket endpoints (`/ws/{user_id}` and
`/chat/{conversation_id}/{user_id}`) are embedded as recursions over a list of
transport events: an inbound text frame, the `WebSocketDisconnect` signal
raised by `receive_text`, or any other exception raised inside the loop
(e.g. a `send_text` failure).  Crucially, the Python code wraps its loop in
`try ... except WebSocketDisconnect: manager.disconnect(user_id)`: only the
disconnect signal runs the deregistration handler, every other exception
propagates out of the endpoint without touching the registry.
-/

/-- Lookup in an association list, mirroring Python `d[k]` / `d.get(k)`. -/
def dictLookup {α : Type} : List (String × α) → String → Option α
  | [], _ => none
  | p :: d, k => if p.1 = k then some p.2 else dictLookup d k

/-- Mirrors Python `del d[k]` / `d.pop(k, None)`: removes the entry for `k`. -/
def dictErase {α : Type} : List (String × α) → String → List (String × α)
  | [], _ => []
  | p :: d, k => if p.1 = k then dictErase d k else p :: dictErase d k

/-- Mirrors Python assignment `d[k] = v`: at most one entry per key survives. -/
def dictInsert {α : Type} (d : List (String × α)) (k : String) (v : α) :
    List (String × α) :=
  dictErase d k ++ [(k, v)]

/-- Mirrors Python `k in d`. -/
def dictContains {α : Type} (d : List (String × α)) (k : String) : Bool :=
  (dictLookup d k).isSome

theorem dictLookup_erase_self {α : Type} (d : List (String × α)) (k : String) :
    dictLookup (dictErase d k) k = none := by
  induction d with
  | nil => rfl
  | cons p d ih =>
      by_cases h : p.1 = k
      · simp [dictErase, h, ih]
      · simp [dictErase, dictLookup, h, ih]

theorem dictLookup_erase_ne {α : Type} (d : List (String × α)) {k k' : String}
    (h : k' ≠ k) : dictLookup (dictErase d k) k' = dictLookup d k' := by
  induction d with
  | nil => rfl
  | cons p d ih =>
      have hkk : ¬ k = k' := fun e => h e.symm
      by_cases hp : p.1 = k
      · simp [dictErase, dictLookup, hp, hkk, ih]
      · by_cases hp' : p.1 = k'
        · simp [dictErase, dictLookup, hp, hp', h]
        · simp [dictErase, dictLookup, hp, hp', ih]

theorem dictLookup_append {α : Type} (d1 d2 : List (String × α)) (k : String) :
    dictLookup (d1 ++ d2) k =
      (match dictLookup d1 k with
       | some v => some v
       | none => dictLookup d2 k) := by
  induction d1 with
  | nil => simp [dictLookup]
  | cons p d ih =>
      by_cases h : p.1 = k
      · simp [dictLookup, h]
      · simp [dictLookup, h, ih]

theorem dictLookup_insert_self {α : Type} (d : List (String × α)) (k : String) (v : α) :
    dictLookup (dictInsert d k v) k = some v := by
  unfold dictInsert
  rw [dictLookup_append, dictLookup_erase_self]
  simp [dictLookup]

theorem dictLookup_insert_ne {α : Type} (d : List (String × α)) {k k' : String} (v : α)
    (h : k' ≠ k) : dictLookup (dictInsert d k v) k' = dictLookup d k' := by
  unfold dictInsert
  rw [dictLookup_append, dictLookup_erase_ne d h]
  cases hd : dictLookup d k' with
  | none =>
      have hkk : ¬ k = k' := fun e => h e.symm
      simp [dictLookup, hkk]
  | some w => simp

theorem dictContains_insert_self {α : Type} (d : List (String × α)) (k : String) (v : α) :
    dictContains (dictInsert d k v) k = true := by
  simp [dictContains, dictLookup_insert_self]

theorem dictContains_insert_mono {α : Type} (d : List (String × α)) {k' : String}
    (k : String) (v : α) (h : dictContains d k' = true) :
    dictContains (dictInsert d k v) k' = true := by
  by_cases hk : k' = k
  · subst hk; exact dictContains_insert_self d k' v
  · simpa [dictContains, dictLookup_insert_ne d v hk] using h

theorem dictContains_insert_cases {α : Type} (d : List (String × α)) {k k' : String}
    {v : α} (h : dictContains (dictInsert d k v) k' = true) :
    k' = k ∨ dictContains d k' = true := by
  by_cases hk : k' = k
  · exact Or.inl hk
  · right; simpa [dictContains, dictLookup_insert_ne d v hk] using h

theorem dictLookup_insert_cases {α : Type} (d : List (String × α)) {k k' : String}
    {v w : α} (h : dictLookup (dictInsert d k v) k' = some w) :
    (k' = k ∧ w = v) ∨ dictLookup d k' = some w := by
  by_cases hk : k' = k
  · subst hk
    rw [dictLookup_insert_self] at h
    exact Or.inl ⟨rfl, (Option.some.injEq _ _ ▸ h).symm⟩
  · right; rwa [dictLookup_insert_ne d v hk] at h

theorem dictLookup_erase_cases {α : Type} (d : List (String × α)) {k k' : String}
    {w : α} (h : dictLookup (dictErase d k) k' = some w) :
    dictLookup d k' = some w := by
  by_cases hk : k' = k
  · subst hk; rw [dictLookup_erase_self] at h; cases h
  · rwa [dictLookup_erase_ne d hk] at h

theorem dictContains_of_lookup {α : Type} {d : List (String × α)} {k : String} {v : α}
    (h : dictLookup d k = some v) : dictContains d k = true := by
  simp [dictContains, h]

theorem lookup_some_of_contains {α : Type} {d : List (String × α)} {k : String}
    (h : dictContains d k = true) : ∃ v, dictLookup d k = some v := by
  cases hd : dictLookup d k with
  | none => simp [dictContains, hd] at h
  | some v => exact ⟨v, rfl⟩

/-- Entries of the dictionary whose key is `k`. -/
def dictEntriesFor {α : Type} (d : List (String × α)) (k : String) :
    List (String × α) :=
  d.filter (fun p => decide (p.1 = k))

theorem dictEntriesFor_erase {α : Type} (d : List (String × α)) (k : String) :
    dictEntriesFor (dictErase d k) k = [] := by
  induction d with
  | nil => rfl
  | cons p d ih =>
      by_cases h : p.1 = k
      · simp [dictErase, h, ih]
      · simp [dictErase, dictEntriesFor, List.filter, h, ih]
        simpa [dictEntriesFor] using ih

theorem dictEntriesFor_insert {α : Type} (d : List (String × α)) (k : String) (v : α) :
    dictEntriesFor (dictInsert d k v) k = [(k, v)] := by
  unfold dictInsert
  have h1 : dictEntriesFor (dictErase d k ++ [(k, v)]) k =
      dictEntriesFor (dictErase d k) k ++ dictEntriesFor [(k, v)] k := by
    simp [dictEntriesFor, List.filter_append]
  rw [h1, dictEntriesFor_erase]
  simp [dictEntriesFor, List.filter]

/-- Python `class User(BaseModel)` in `src/main.py`. -/
structure User where
  id : String
  name : String
deriving DecidableEq, Repr

/-- Python `class FriendRequest(BaseModel)` in `src/main.py`. -/
structure FriendRequest where
  id : String
  from_user : String
  to_user : String
deriving DecidableEq, Repr

/-- Python `class Conversation(BaseModel)` in `src/main.py`; `messages` is a list of
plain strings, exactly as in the source (`messages: List[str] = []`). -/
structure Conversation where
  id : String
  participants : List String
  messages : List String
deriving DecidableEq, Repr

/-- Result of one HTTP-style call: the returned value, a raised
`HTTPException(status_code, detail)`, or a raised Python `KeyError`. -/
inductive ApiResult (α : Type) where
  | ok (val : α)
  | httpError (status : Nat) (detail : String)
  | keyError (key : String)
deriving DecidableEq, Repr

/-- Python `class ConnectionManager`: `active_connections: Dict[str, WebSocket]`.
A websocket handle is abstracted as a `Nat` identifier. -/
structure ConnectionManager where
  active_connections : List (String × Nat)
deriving DecidableEq, Repr

/-- Method `ConnectionManager.connect`: accepts the socket and installs
`active_connections[user_id] = websocket` (replacing any previous entry). -/
def ConnectionManager.connect (m : ConnectionManager) (user_id : String)
    (websocket : Nat) : ConnectionManager :=
  { active_connections := dictInsert m.active_connections user_id websocket }

/-- Method `ConnectionManager.disconnect`: `active_connections.pop(user_id, None)`. -/
def ConnectionManager.disconnect (m : ConnectionManager) (user_id : String) :
    ConnectionManager :=
  { active_connections := dictErase m.active_connections user_id }

/-- Method `ConnectionManager.send_to_user`: pushes `message` iff `user_id` is
registered; returns the list of push attempts actually made (empty when the
user is absent — the lookup guard means no send is attempted, so nothing can
raise and nothing is retried). -/
def ConnectionManager.send_to_user (m : ConnectionManager) (user_id message : String) :
    List (String × String) :=
  if dictContains m.active_connections user_id = true then [(user_id, message)] else []

/-- The module-level mutable state of `src/main.py`: the four databases and
the global `manager`. -/
structure ServerState where
  users_db : List (String × User)
  friends_db : List (String × List String)
  friend_requests_db : List (String × FriendRequest)
  conversations_db : List (String × Conversation)
  manager : ConnectionManager
deriving DecidableEq, Repr

/-- The state at module import time: every database empty. -/
def initState : ServerState :=
  { users_db := [], friends_db := [], friend_requests_db := [],
    conversations_db := [], manager := { active_connections := [] } }

/-- Endpoint `POST /users/` (`create_user`).  `new_id` stands for the fresh
`str(uuid4())` the endpoint generates. -/
def create_user (st : ServerState) (new_id name : String) : ServerState × User :=
  let new_user : User := { id := new_id, name := name }
  ({ st with users_db := dictInsert st.users_db new_id new_user,
             friends_db := dictInsert st.friends_db new_id [] }, new_user)

/-- Endpoint `POST /users/{user_id}/friend_requests/` (`send_friend_request`).
`request_id` stands for the fresh `str(uuid4())`.  The source checks only that
`friend_id` is known, stores the request, and then reads
`users_db[user_id].name` — which raises `KeyError` when the *sender* is
unknown, after the request has already been stored. -/
def send_friend_request (st : ServerState) (request_id user_id friend_id : String) :
    ServerState × List (String × String) × ApiResult FriendRequest :=
  if dictContains st.users_db friend_id = false then
    (st, [], ApiResult.httpError 404 "User not found")
  else
    let friend_request : FriendRequest :=
      { id := request_id, from_user := user_id, to_user := friend_id }
    let st1 := { st with
      friend_requests_db := dictInsert st.friend_requests_db request_id friend_request }
    match dictLookup st1.users_db user_id with
    | none => (st1, [], ApiResult.keyError user_id)
    | some sender =>
        (st1, st1.manager.send_to_user friend_id ("Friend request from " ++ sender.name),
          ApiResult.ok friend_request)

/-- Endpoint `POST /users/{user_id}/friend_requests/{request_id}/accept/`
(`accept_friend_request`).  Mirrors the source line by line: 404 when the
request id is unknown, 403 when `to_user != user_id`, then the two friend-list
appends, the request deletion, and the best-effort notification.  Each
Python dict subscript that can raise `KeyError` is modelled as a `match`
whose `none` branch returns the state as mutated so far. -/
def accept_friend_request (st : ServerState) (user_id request_id : String) :
    ServerState × List (String × String) × ApiResult String :=
  match dictLookup st.friend_requests_db request_id with
  | none => (st, [], ApiResult.httpError 404 "Friend request not found")
  | some friend_request =>
      if friend_request.to_user ≠ user_id then
        (st, [], ApiResult.httpError 403 "Cannot accept this friend request")
      else
        match dictLookup st.friends_db friend_request.from_user with
        | none => (st, [], ApiResult.keyError friend_request.from_user)
        | some from_friends =>
            let from_list1 := from_friends ++ [user_id]
            let st1 :=
              { st with friends_db :=
                          dictInsert st.friends_db friend_request.from_user from_list1 }
            match dictLookup st1.friends_db user_id with
            | none => (st1, [], ApiResult.keyError user_id)
            | some to_friends =>
                let to_list1 := to_friends ++ [friend_request.from_user]
                let st2 :=
                  { st1 with friends_db := dictInsert st1.friends_db user_id to_list1 }
                let st3 :=
                  { st2 with friend_requests_db :=
                               dictErase st2.friend_requests_db request_id }
                match dictLookup st3.users_db user_id with
                | none => (st3, [], ApiResult.keyError user_id)
                | some accepting_user =>
                    (st3,
                     st3.manager.send_to_user friend_request.from_user
                       ("Friend request accepted by " ++ accepting_user.name),
                     ApiResult.ok "Friend request accepted")

/-- Endpoint `POST /conversations/` (`create_conversation`); `conversation_id` stands
for the fresh `str(uuid4())`. -/
def create_conversation (st : ServerState) (conversation_id user_id friend_id : String) :
    ServerState × ApiResult Conversation :=
  if dictContains st.users_db user_id = false ∨ dictContains st.users_db friend_id = false then
    (st, ApiResult.httpError 404 "User not found")
  else
    let conversation : Conversation :=
      { id := conversation_id, participants := [user_id, friend_id], messages := [] }
    ({ st with conversations_db :=
        dictInsert st.conversations_db conversation_id conversation },
     ApiResult.ok conversation)

/-- The body of the `while True` loop of `/chat/{conversation_id}/{user_id}`
for one inbound frame `data` (lines 141-149 of `src/main.py`): tag the text
with the sender, and only when the conversation exists and the sender is a
participant, append it to the history and fan it out to the other
participants through `send_to_user`.  Returns the new state and the send
attempts made. -/
def chatStep (st : ServerState) (conversation_id user_id data : String) :
    ServerState × List (String × String) :=
  let message := user_id ++ ": " ++ data
  match dictLookup st.conversations_db conversation_id with
  | none => (st, [])
  | some conversation =>
      if user_id ∈ conversation.participants then
        let conversation1 :=
          { conversation with messages := conversation.messages ++ [message] }
        let st1 :=
          { st with conversations_db :=
                      dictInsert st.conversations_db conversation_id conversation1 }
        (st1,
         (conversation.participants.filter (fun p => decide (p ≠ user_id))).flatMap
           (fun participant => st1.manager.send_to_user participant message))
      else (st, [])

/-- One transport event observed by a connection session's `while True` loop:
an inbound text frame, the `WebSocketDisconnect` exception raised by
`receive_text` on normal transport disconnect, or any other unrecoverable
read/write exception raised inside the loop (e.g. `send_text` on a broken
socket). -/
inductive WsEvent where
  | frame (data : String)
  | disconnected
  | readWriteError
deriving DecidableEq, Repr

/-- The `try/except` loop of `/ws/{user_id}` (lines 113-118): each frame is
echoed back to the session's own socket; `WebSocketDisconnect` runs
`manager.disconnect(user_id)` and ends the session; any other exception
propagates out of the endpoint, ending the session WITHOUT deregistering.
Returns the final state, the texts pushed to the session's own socket, and
whether the session has terminated. -/
def wsLoop (st : ServerState) (user_id : String) :
    List WsEvent → ServerState × List String × Bool
  | [] => (st, [], false)
  | WsEvent.frame data :: rest =>
      let sent := "Message from " ++ user_id ++ ": " ++ data
      let r := wsLoop st user_id rest
      (r.1, sent :: r.2.1, r.2.2)
  | WsEvent.disconnected :: _ =>
      ({ st with manager := st.manager.disconnect user_id }, [], true)
  | WsEvent.readWriteError :: _ => (st, [], true)

/-- Endpoint `/ws/{user_id}` (`websocket_endpoint`): `manager.connect` then the loop. -/
def websocket_endpoint (st : ServerState) (user_id : String) (websocket : Nat)
    (events : List WsEvent) : ServerState × List String × Bool :=
  wsLoop { st with manager := st.manager.connect user_id websocket } user_id events

/-- The `try/except` loop of `/chat/{conversation_id}/{user_id}`
(lines 139-151): frames go through `chatStep`; `WebSocketDisconnect` runs
`manager.disconnect(user_id)`; any other exception propagates without
deregistering.  Returns the final state, all send attempts, and whether the
session has terminated. -/
def chatLoop (conversation_id user_id : String) :
    ServerState → List WsEvent → ServerState × List (String × String) × Bool
  | st, [] => (st, [], false)
  | st, WsEvent.frame data :: rest =>
      let r0 := chatStep st conversation_id user_id data
      let r := chatLoop conversation_id user_id r0.1 rest
      (r.1, r0.2 ++ r.2.1, r.2.2)
  | st, WsEvent.disconnected :: _ =>
      ({ st with manager := st.manager.disconnect user_id }, [], true)
  | st, WsEvent.readWriteError :: _ => (st, [], true)

/-- Endpoint `/chat/{conversation_id}/{user_id}` (`chat`): `manager.connect` then the
loop. -/
def chat (st : ServerState) (conversation_id user_id : String) (websocket : Nat)
    (events : List WsEvent) : ServerState × List (String × String) × Bool :=
  chatLoop conversation_id user_id
    { st with manager := st.manager.connect user_id websocket } events

/-- The friend list stored for `a`; a user with no entry has no friends. -/
def friendsOf (F : List (String × List String)) (a : String) : List String :=
  (dictLookup F a).getD []

/-- Symmetry of the materialized friendship relation. -/
def FriendSymDb (F : List (String × List String)) : Prop :=
  ∀ a b : String, a ∈ friendsOf F b ↔ b ∈ friendsOf F a

theorem friendsOf_insert (F : List (String × List String)) (k x : String)
    (v : List String) :
    friendsOf (dictInsert F k v) x = if x = k then v else friendsOf F x := by
  by_cases h : x = k
  · subst h; simp [friendsOf, dictLookup_insert_self]
  · simp [friendsOf, dictLookup_insert_ne F v h, h]

theorem friendSym_insert_nil (F : List (String × List String)) (n : String)
    (hn : dictLookup F n = none) (hsym : FriendSymDb F) :
    FriendSymDb (dictInsert F n []) := by
  have hpt : ∀ x, friendsOf (dictInsert F n []) x = friendsOf F x := by
    intro x
    rw [friendsOf_insert]
    by_cases h : x = n
    · subst h; simp [friendsOf, hn]
    · simp [h]
  intro a b
  rw [hpt a, hpt b]
  exact hsym a b


theorem friendSym_add_edge (F G : List (String × List String)) (f u : String)
    (hsym : FriendSymDb F)
    (hmem : ∀ x y : String,
      y ∈ friendsOf G x ↔ (y ∈ friendsOf F x ∨ (x = u ∧ y = f) ∨ (x = f ∧ y = u))) :
    FriendSymDb G := by
  intro a b
  rw [hmem b a, hmem a b]
  constructor
  · rintro (h | ⟨h1, h2⟩ | ⟨h1, h2⟩)
    · exact Or.inl ((hsym a b).mp h)
    · exact Or.inr (Or.inr ⟨h2, h1⟩)
    · exact Or.inr (Or.inl ⟨h2, h1⟩)
  · rintro (h | ⟨h1, h2⟩ | ⟨h1, h2⟩)
    · exact Or.inl ((hsym a b).mpr h)
    · exact Or.inr (Or.inr ⟨h2, h1⟩)
    · exact Or.inr (Or.inl ⟨h2, h1⟩)

theorem mem_friendsOf_accept (F : List (String × List String)) (f u : String)
    (fl flu : List String)
    (hf : dictLookup F f = some fl)
    (hflu : dictLookup (dictInsert F f (fl ++ [u])) u = some flu) :
    ∀ x y : String,
      y ∈ friendsOf (dictInsert (dictInsert F f (fl ++ [u])) u (flu ++ [f])) x ↔
        (y ∈ friendsOf F x ∨ (x = u ∧ y = f) ∨ (x = f ∧ y = u)) := by
  intro x y
  rw [friendsOf_insert]
  by_cases hxu : x = u
  · subst hxu
    rw [if_pos rfl]
    by_cases hfx : f = x
    · subst hfx
      rw [dictLookup_insert_self] at hflu
      have hflu' : flu = fl ++ [f] := (Option.some.injEq _ _ ▸ hflu).symm
      subst hflu'
      have hFf : friendsOf F f = fl := by simp [friendsOf, hf]
      simp [List.mem_append, hFf]
    · have hne : x ≠ f := fun e => hfx e.symm
      rw [dictLookup_insert_ne F (fl ++ [x]) hne] at hflu
      have hFx : friendsOf F x = flu := by simp [friendsOf, hflu]
      simp [List.mem_append, hFx, hne, hfx]
  · rw [if_neg hxu, friendsOf_insert]
    by_cases hxf : x = f
    · subst hxf
      rw [if_pos rfl]
      have hFx : friendsOf F x = fl := by simp [friendsOf, hf]
      simp [List.mem_append, hFx, hxu]
    · rw [if_neg hxf]
      simp [hxu, hxf]

theorem friendSym_accept (F : List (String × List String)) (f u : String)
    (fl flu : List String)
    (hf : dictLookup F f = some fl)
    (hflu : dictLookup (dictInsert F f (fl ++ [u])) u = some flu)
    (hsym : FriendSymDb F) :
    FriendSymDb (dictInsert (dictInsert F f (fl ++ [u])) u (flu ++ [f])) :=
  friendSym_add_edge F _ f u hsym (mem_friendsOf_accept F f u fl flu hf hflu)

/-- Invariants of the reachable server states: friend-list keys are known
users, every known user has a friend list (`create_user` makes both entries),
every stored friend request points at a known recipient (checked by
`send_friend_request` before storing), and friendship is symmetric. -/
structure ServerInv (st : ServerState) : Prop where
  friend_keys_known : ∀ k, dictContains st.friends_db k = true →
    dictContains st.users_db k = true
  users_have_lists : ∀ k, dictContains st.users_db k = true →
    dictContains st.friends_db k = true
  requests_to_known : ∀ rid fr, dictLookup st.friend_requests_db rid = some fr →
    dictContains st.users_db fr.to_user = true
  friend_sym : FriendSymDb st.friends_db

theorem inv_initState : ServerInv initState := by
  refine ⟨?_, ?_, ?_, ?_⟩
  · intro k h; simp [initState, dictContains, dictLookup] at h
  · intro k h; simp [initState, dictContains, dictLookup] at h
  · intro rid fr h; simp [initState, dictLookup] at h
  · intro a b; simp [initState, friendsOf, dictLookup]

theorem inv_of_core_eq (s t : ServerState)
    (hu : t.users_db = s.users_db) (hf : t.friends_db = s.friends_db)
    (hr : t.friend_requests_db = s.friend_requests_db) (h : ServerInv s) : ServerInv t := by
  refine ⟨?_, ?_, ?_, ?_⟩
  · rw [hf, hu]; exact h.friend_keys_known
  · rw [hu, hf]; exact h.users_have_lists
  · rw [hr, hu]; exact h.requests_to_known
  · rw [hf]; exact h.friend_sym

theorem inv_create_user {st : ServerState} (h : ServerInv st) (new_id name : String)
    (hfresh : dictContains st.users_db new_id = false) :
    ServerInv (create_user st new_id name).1 := by
  have hn : dictLookup st.friends_db new_id = none := by
    cases hl : dictLookup st.friends_db new_id with
    | none => rfl
    | some l =>
        have hc := h.friend_keys_known new_id (dictContains_of_lookup hl)
        rw [hfresh] at hc
        cases hc
  refine ⟨?_, ?_, ?_, ?_⟩
  · intro k hk
    rcases dictContains_insert_cases _ hk with hke | hk'
    · subst hke
      exact dictContains_insert_self _ _ _
    · exact dictContains_insert_mono _ _ _ (h.friend_keys_known k hk')
  · intro k hk
    rcases dictContains_insert_cases _ hk with hke | hk'
    · subst hke
      exact dictContains_insert_self _ _ _
    · exact dictContains_insert_mono _ _ _ (h.users_have_lists k hk')
  · intro rid fr hr
    exact dictContains_insert_mono _ _ _ (h.requests_to_known rid fr hr)
  · exact friendSym_insert_nil st.friends_db new_id hn h.friend_sym

theorem inv_send_friend_request {st : ServerState} (h : ServerInv st)
    (request_id user_id friend_id : String) :
    ServerInv (send_friend_request st request_id user_id friend_id).1 := by
  unfold send_friend_request
  by_cases hc : dictContains st.users_db friend_id = false
  · rw [if_pos hc]
    exact h
  · rw [if_neg hc]
    have hc' : dictContains st.users_db friend_id = true := by
      revert hc
      cases dictContains st.users_db friend_id <;> simp
    have hInv1 : ServerInv
        { st with
            friend_requests_db :=
              dictInsert st.friend_requests_db request_id
                { id := request_id, from_user := user_id, to_user := friend_id } } := by
      refine ⟨h.friend_keys_known, h.users_have_lists, ?_, h.friend_sym⟩
      intro rid fr hr
      rcases dictLookup_insert_cases _ hr with ⟨hke, hfr⟩ | hr'
      · subst hfr
        exact hc'
      · exact h.requests_to_known rid fr hr'
    dsimp only
    cases dictLookup st.users_db user_id with
    | none => exact hInv1
    | some sender => exact hInv1

theorem inv_accept_friend_request {st : ServerState} (h : ServerInv st)
    (user_id request_id : String) :
    ServerInv (accept_friend_request st user_id request_id).1 := by
  unfold accept_friend_request
  cases hr : dictLookup st.friend_requests_db request_id with
  | none => exact h
  | some fr =>
      dsimp only
      by_cases hto : fr.to_user ≠ user_id
      · rw [if_pos hto]
        exact h
      · rw [if_neg hto]
        have hto' : fr.to_user = user_id := by
          revert hto
          by_cases e : fr.to_user = user_id <;> simp [e]
        have huser : dictContains st.users_db user_id = true := by
          have := h.requests_to_known request_id fr hr
          rwa [hto'] at this
        cases hf : dictLookup st.friends_db fr.from_user with
        | none => exact h
        | some fl =>
            dsimp only
            have hfc : dictContains st.users_db fr.from_user = true :=
              h.friend_keys_known fr.from_user (dictContains_of_lookup hf)
            cases hflu : dictLookup
                (dictInsert st.friends_db fr.from_user (fl ++ [user_id])) user_id with
            | none =>
                exfalso
                rcases lookup_some_of_contains (h.users_have_lists user_id huser)
                  with ⟨w, hw⟩
                by_cases he : user_id = fr.from_user
                · rw [he, dictLookup_insert_self] at hflu
                  cases hflu
                · rw [dictLookup_insert_ne _ _ he, hw] at hflu
                  cases hflu
            | some flu =>
                have hInv3 : ServerInv
                    { st with
                        friends_db :=
                          dictInsert
                            (dictInsert st.friends_db fr.from_user (fl ++ [user_id]))
                            user_id (flu ++ [fr.from_user]),
                        friend_requests_db :=
                          dictErase st.friend_requests_db request_id } := by
                  refine ⟨?_, ?_, ?_, ?_⟩
                  · intro k hk
                    rcases dictContains_insert_cases _ hk with hke | hk' 
                    · subst hke
                      exact huser
                    · rcases dictContains_insert_cases _ hk' with hke | hk''
                      · subst hke
                        exact hfc
                      · exact h.friend_keys_known k hk''
                  · intro k hk
                    exact dictContains_insert_mono _ _ _
                      (dictContains_insert_mono _ _ _ (h.users_have_lists k hk))
                  · intro rid fr2 hr2
                    exact h.requests_to_known rid fr2 (dictLookup_erase_cases _ hr2)
                  · exact friendSym_accept st.friends_db fr.from_user user_id fl flu
                      hf hflu h.friend_sym
                dsimp only
                cases dictLookup st.users_db user_id with
                | none => exact hInv3
                | some accepting_user => exact hInv3

theorem chatStep_fields (st : ServerState) (conversation_id user_id data : String) :
    (chatStep st conversation_id user_id data).1.users_db = st.users_db ∧
    (chatStep st conversation_id user_id data).1.friends_db = st.friends_db ∧
    (chatStep st conversation_id user_id data).1.friend_requests_db =
      st.friend_requests_db ∧
    (chatStep st conversation_id user_id data).1.manager = st.manager := by
  unfold chatStep
  cases dictLookup st.conversations_db conversation_id with
  | none => exact ⟨rfl, rfl, rfl, rfl⟩
  | some conversation =>
      by_cases hp : user_id ∈ conversation.participants
      · simp [hp]
      · simp [hp]

theorem inv_create_conversation {st : ServerState} (h : ServerInv st)
    (conversation_id user_id friend_id : String) :
    ServerInv (create_conversation st conversation_id user_id friend_id).1 := by
  unfold create_conversation
  by_cases hc : dictContains st.users_db user_id = false ∨
      dictContains st.users_db friend_id = false
  · rw [if_pos hc]
    exact h
  · rw [if_neg hc]
    exact inv_of_core_eq st _ rfl rfl rfl h

theorem inv_chatStep {st : ServerState} (h : ServerInv st)
    (conversation_id user_id data : String) :
    ServerInv (chatStep st conversation_id user_id data).1 := by
  have hs := chatStep_fields st conversation_id user_id data
  exact inv_of_core_eq st _ hs.1 hs.2.1 hs.2.2.1 h

/-- One transition of the whole server: any state-mutating entry point of
`src/main.py`, its error paths included, exactly as the code leaves the
state.  The id a `uuid4()` call returns is modelled as an arbitrary string
that is fresh for the user table (uuid collisions are assumed away only
where the code itself relies on freshness). -/
inductive Step : ServerState → ServerState → Prop where
  | createUser (st : ServerState) (new_id name : String)
      (hfresh : dictContains st.users_db new_id = false) :
      Step st (create_user st new_id name).1
  | sendFriendRequest (st : ServerState) (request_id user_id friend_id : String) :
      Step st (send_friend_request st request_id user_id friend_id).1
  | acceptFriendRequest (st : ServerState) (user_id request_id : String) :
      Step st (accept_friend_request st user_id request_id).1
  | createConversation (st : ServerState) (conversation_id user_id friend_id : String) :
      Step st (create_conversation st conversation_id user_id friend_id).1
  | chatFrame (st : ServerState) (conversation_id user_id data : String) :
      Step st (chatStep st conversation_id user_id data).1
  | connectUser (st : ServerState) (user_id : String) (websocket : Nat) :
      Step st { st with manager := st.manager.connect user_id websocket }
  | disconnectUser (st : ServerState) (user_id : String) :
      Step st { st with manager := st.manager.disconnect user_id }

/-- States reachable from module start by any interleaving of entry points. -/
inductive Reachable : ServerState → Prop where
  | init : Reachable initState
  | step {s t : ServerState} : Reachable s → Step s t → Reachable t

theorem inv_step {s t : ServerState} (h : ServerInv s) (hstep : Step s t) : ServerInv t := by
  cases hstep with
  | createUser new_id name hfresh => exact inv_create_user h new_id name hfresh
  | sendFriendRequest request_id user_id friend_id =>
      exact inv_send_friend_request h request_id user_id friend_id
  | acceptFriendRequest user_id request_id =>
      exact inv_accept_friend_request h user_id request_id
  | createConversation conversation_id user_id friend_id =>
      exact inv_create_conversation h conversation_id user_id friend_id
  | chatFrame conversation_id user_id data =>
      exact inv_chatStep h conversation_id user_id data
  | connectUser user_id websocket => exact inv_of_core_eq s _ rfl rfl rfl h
  | disconnectUser user_id => exact inv_of_core_eq s _ rfl rfl rfl h

theorem reachable_inv {st : ServerState} (h : Reachable st) : ServerInv st := by
  induction h with
  | init => exact inv_initState
  | step hr hs ih => exact inv_step ih hs

theorem dictContains_erase_self {α : Type} (d : List (String × α)) (k : String) :
    dictContains (dictErase d k) k = false := by
  simp [dictContains, dictLookup_erase_self]

theorem wsLoop_frames_disconnected (st : ServerState) (user_id : String)
    (frames : List String) :
    (wsLoop st user_id (frames.map WsEvent.frame ++ [WsEvent.disconnected])).1 =
      { st with manager := st.manager.disconnect user_id } := by
  induction frames with
  | nil => rfl
  | cons f fs ih => simpa [wsLoop] using ih

theorem wsLoop_frames_error (st : ServerState) (user_id : String)
    (frames : List String) :
    (wsLoop st user_id (frames.map WsEvent.frame ++ [WsEvent.readWriteError])).1 = st := by
  induction frames with
  | nil => rfl
  | cons f fs ih => simpa [wsLoop] using ih

theorem chatLoop_frames_disconnected (conversation_id user_id : String)
    (frames : List String) :
    ∀ st : ServerState,
      (chatLoop conversation_id user_id st
        (frames.map WsEvent.frame ++ [WsEvent.disconnected])).1.manager =
        st.manager.disconnect user_id := by
  induction frames with
  | nil => intro st; rfl
  | cons f fs ih =>
      intro st
      have hstep :=
        (chatStep_fields st conversation_id user_id f).2.2.2
      simp only [List.map_cons, List.cons_append, chatLoop, List.append_eq]
      rw [ih, hstep]

theorem chatLoop_frames_error (conversation_id user_id : String)
    (frames : List String) :
    ∀ st : ServerState,
      (chatLoop conversation_id user_id st
        (frames.map WsEvent.frame ++ [WsEvent.readWriteError])).1.manager =
        st.manager := by
  induction frames with
  | nil => intro st; rfl
  | cons f fs ih =>
      intro st
      have hstep :=
        (chatStep_fields st conversation_id user_id f).2.2.2
      simp only [List.map_cons, List.cons_append, chatLoop, List.append_eq]
      rw [ih, hstep]

/-- C1 (amended): a connection session — both the direct `/ws/{user_id}`
session and the conversation `/chat/{conversation_id}/{user_id}` session —
deregisters its user from the presence registry when it terminates through
the normal transport-disconnect signal (`WebSocketDisconnect`); but when the
loop terminates through any other unrecoverable read/write error, the
exception propagates past the `except WebSocketDisconnect` handler and the
user stays registered (a phantom entry). -/
theorem C1_deregister_on_disconnect_only (st : ServerState)
    (conversation_id user_id : String) (websocket : Nat) (frames : List String) :
    dictContains
      (websocket_endpoint st user_id websocket
        (frames.map WsEvent.frame ++ [WsEvent.disconnected])).1.manager.active_connections
      user_id = false ∧
    dictContains
      (chat st conversation_id user_id websocket
        (frames.map WsEvent.frame ++ [WsEvent.disconnected])).1.manager.active_connections
      user_id = false ∧
    dictContains
      (websocket_endpoint st user_id websocket
        (frames.map WsEvent.frame ++ [WsEvent.readWriteError])).1.manager.active_connections
      user_id = true ∧
    dictContains
      (chat st conversation_id user_id websocket
        (frames.map WsEvent.frame ++ [WsEvent.readWriteError])).1.manager.active_connections
      user_id = true := by
  refine ⟨?_, ?_, ?_, ?_⟩
  · rw [websocket_endpoint, wsLoop_frames_disconnected]
    exact dictContains_erase_self _ _
  · rw [chat, chatLoop_frames_disconnected]
    exact dictContains_erase_self _ _
  · rw [websocket_endpoint, wsLoop_frames_error]
    exact dictContains_insert_self _ _ _
  · rw [chat, chatLoop_frames_error]
    exact dictContains_insert_self _ _ _

/-- C1 counterexample: the claim as stated — every way a session terminates
(normal disconnect or unrecoverable read/write error) deregisters the user —
is false.  A `/chat` session and a `/ws` session for user `"a"` terminated by
a non-disconnect error (flag `true` below) leave `"a"` registered in
`manager.active_connections`: a phantom entry after teardown. -/
theorem C1_error_teardown_leaves_phantom_entry :
    (chat initState "c" "a" 1 [WsEvent.readWriteError]).2.2 = true ∧
    dictContains
      (chat initState "c" "a" 1 [WsEvent.readWriteError]).1.manager.active_connections
      "a" = true ∧
    (websocket_endpoint initState "a" 1 [WsEvent.readWriteError]).2.2 = true ∧
    dictContains
      (websocket_endpoint initState "a" 1
        [WsEvent.readWriteError]).1.manager.active_connections "a" = true := by
  decide

/-- C2: a frame received on a conversation channel whose sender is not in the
(existing) conversation's participant set is rejected before any mutation:
the whole server state is unchanged (in particular the conversation's message
sequence keeps its length) and nothing is broadcast — the frame is dropped
silently, no error frame is sent back. -/
theorem C2_nonparticipant_frame_dropped (st : ServerState)
    (conversation_id user_id data : String) (conversation : Conversation)
    (hc : dictLookup st.conversations_db conversation_id = some conversation)
    (hp : user_id ∉ conversation.participants) :
    (chatStep st conversation_id user_id data).1 = st ∧
    (chatStep st conversation_id user_id data).2 = [] ∧
    (dictLookup (chatStep st conversation_id user_id data).1.conversations_db
        conversation_id).map (fun c => c.messages.length) =
      some conversation.messages.length := by
  have hmain : chatStep st conversation_id user_id data = (st, []) := by
    unfold chatStep
    rw [hc]
    dsimp only
    rw [if_neg hp]
  rw [hmain]
  exact ⟨rfl, rfl, by rw [hc]; rfl⟩

/-- Concrete state for the C2 witness: conversation `"c"` between `"a"` and
`"b"`, and a stranger `"z"` about to send on it. -/
def c2State : ServerState :=
  { users_db := [("a", { id := "a", name := "A" }), ("b", { id := "b", name := "B" })],
    friends_db := [("a", []), ("b", [])],
    friend_requests_db := [],
    conversations_db := [("c", { id := "c", participants := ["a", "b"], messages := [] })],
    manager := { active_connections := [("a", 1), ("b", 2)] } }

theorem C2_nonparticipant_frame_dropped_witness :
    (chatStep c2State "c" "z" "hi").1 = c2State ∧
    (chatStep c2State "c" "z" "hi").2 = [] ∧
    (dictLookup (chatStep c2State "c" "z" "hi").1.conversations_db "c").map
        (fun c => c.messages.length) =
      some (Conversation.mk "c" ["a", "b"] []).messages.length :=
  C2_nonparticipant_frame_dropped c2State "c" "z" "hi"
    (Conversation.mk "c" ["a", "b"] []) (by decide) (by decide)

/-- C3: registering user `u` twice (a reconnect) leaves exactly one entry for
`u` in the presence registry, and that entry is the most recently registered
connection `c2` — `ConnectionManager.connect` overwrites the previous
handle. -/
theorem C3_reconnect_keeps_single_newest_entry (m : ConnectionManager) (u : String)
    (c1 c2 : Nat) :
    dictEntriesFor ((m.connect u c1).connect u c2).active_connections u = [(u, c2)] ∧
    dictLookup ((m.connect u c1).connect u c2).active_connections u = some c2 :=
  ⟨dictEntriesFor_insert _ u c2, dictLookup_insert_self _ u c2⟩

/-- C4: for a stored friend request `fr` addressed to `u` (with a distinct
sender), the first accept succeeds, the second accept of the same request id
fails with the 404 not-found error and mutates nothing, and across both calls
each user is appended to the other's friend list exactly once. -/
theorem C4_second_accept_not_found_edges_once (st : ServerState) (u rid : String)
    (fr : FriendRequest) (fl flu : List String) (usr : User)
    (hr : dictLookup st.friend_requests_db rid = some fr)
    (hto : fr.to_user = u)
    (hfu : fr.from_user ≠ u)
    (hf : dictLookup st.friends_db fr.from_user = some fl)
    (hu : dictLookup st.friends_db u = some flu)
    (husr : dictLookup st.users_db u = some usr) :
    (accept_friend_request st u rid).2.2 = ApiResult.ok "Friend request accepted" ∧
    (accept_friend_request (accept_friend_request st u rid).1 u rid).2.2 =
      ApiResult.httpError 404 "Friend request not found" ∧
    (accept_friend_request (accept_friend_request st u rid).1 u rid).1 =
      (accept_friend_request st u rid).1 ∧
    dictLookup (accept_friend_request st u rid).1.friends_db fr.from_user =
      some (fl ++ [u]) ∧
    dictLookup (accept_friend_request st u rid).1.friends_db u =
      some (flu ++ [fr.from_user]) ∧
    dictLookup (accept_friend_request st u rid).1.friend_requests_db rid = none := by
  have hune : u ≠ fr.from_user := fun e => hfu e.symm
  have hlu : dictLookup (dictInsert st.friends_db fr.from_user (fl ++ [u])) u =
      some flu := by
    rw [dictLookup_insert_ne _ _ hune]
    exact hu
  have hstep1 : accept_friend_request st u rid =
      ({ st with
           friends_db :=
             dictInsert (dictInsert st.friends_db fr.from_user (fl ++ [u])) u
               (flu ++ [fr.from_user]),
           friend_requests_db := dictErase st.friend_requests_db rid },
       st.manager.send_to_user fr.from_user
         ("Friend request accepted by " ++ usr.name),
       ApiResult.ok "Friend request accepted") := by
    unfold accept_friend_request
    rw [hr]
    dsimp only
    rw [if_neg (by simp [hto])]
    rw [hf]
    dsimp only
    rw [hlu]
    dsimp only
    rw [husr]
  have hstep2 : accept_friend_request (accept_friend_request st u rid).1 u rid =
      ((accept_friend_request st u rid).1, [],
        ApiResult.httpError 404 "Friend request not found") := by
    rw [hstep1]
    unfold accept_friend_request
    dsimp only
    rw [dictLookup_erase_self]
  refine ⟨?_, ?_, ?_, ?_, ?_, ?_⟩
  · rw [hstep1]
  · rw [hstep2]
  · rw [hstep2]
  · rw [hstep1]
    dsimp only
    rw [dictLookup_insert_ne _ _ hfu, dictLookup_insert_self]
  · rw [hstep1]
    dsimp only
    rw [dictLookup_insert_self]
  · rw [hstep1]
    dsimp only
    rw [dictLookup_erase_self]

/-- Concrete state for the C4 and C5 witnesses: users `"a"` and `"b"` with a
pending request `"r"` from `"a"` to `"b"`. -/
def c4State : ServerState :=
  { users_db := [("a", { id := "a", name := "A" }), ("b", { id := "b", name := "B" })],
    friends_db := [("a", []), ("b", [])],
    friend_requests_db := [("r", { id := "r", from_user := "a", to_user := "b" })],
    conversations_db := [],
    manager := { active_connections := [] } }

theorem C4_second_accept_not_found_edges_once_witness :
    (accept_friend_request c4State "b" "r").2.2 =
      ApiResult.ok "Friend request accepted" ∧
    (accept_friend_request (accept_friend_request c4State "b" "r").1 "b" "r").2.2 =
      ApiResult.httpError 404 "Friend request not found" ∧
    (accept_friend_request (accept_friend_request c4State "b" "r").1 "b" "r").1 =
      (accept_friend_request c4State "b" "r").1 ∧
    dictLookup (accept_friend_request c4State "b" "r").1.friends_db "a" =
      some ["b"] ∧
    dictLookup (accept_friend_request c4State "b" "r").1.friends_db "b" =
      some ["a"] ∧
    dictLookup (accept_friend_request c4State "b" "r").1.friend_requests_db "r" =
      none :=
  C4_second_accept_not_found_edges_once c4State "b" "r"
    (FriendRequest.mk "r" "a" "b") [] [] (User.mk "b" "B")
    (by decide) (by decide) (by decide) (by decide) (by decide) (by decide)

/-- C5: accepting a stored friend request as anyone other than its recipient
returns the 403 Forbidden error and mutates nothing: the returned state is
the input state, every store included, and no notification is attempted. -/
theorem C5_forbidden_accept_mutates_nothing (st : ServerState) (u rid : String)
    (fr : FriendRequest)
    (hr : dictLookup st.friend_requests_db rid = some fr)
    (hne : fr.to_user ≠ u) :
    accept_friend_request st u rid =
      (st, [], ApiResult.httpError 403 "Cannot accept this friend request") := by
  unfold accept_friend_request
  rw [hr]
  dsimp only
  rw [if_pos hne]

theorem C5_forbidden_accept_mutates_nothing_witness :
    accept_friend_request c4State "z" "r" =
      (c4State, [], ApiResult.httpError 403 "Cannot accept this friend request") :=
  C5_forbidden_accept_mutates_nothing c4State "z" "r"
    (FriendRequest.mk "r" "a" "b") (by decide) (by decide)

/-- C6: `send_to_user` for a user with no live connection in the presence
registry makes no push attempt at all — the returned attempt list is empty,
so nothing is sent, nothing is retried, and no error can reach the caller. -/
theorem C6_send_to_absent_user_drops (m : ConnectionManager)
    (user_id message : String)
    (h : dictContains m.active_connections user_id = false) :
    m.send_to_user user_id message = [] := by
  unfold ConnectionManager.send_to_user
  rw [h]
  simp

theorem C6_send_to_absent_user_drops_witness :
    ConnectionManager.send_to_user { active_connections := [("b", 2)] } "a" "hello" =
      [] :=
  C6_send_to_absent_user_drops { active_connections := [("b", 2)] } "a" "hello"
    (by decide)

/-- C7: sending a friend request to an unknown recipient returns the 404
not-found error and creates nothing: the returned state is the input state,
so the friend-request table is unchanged, and no notification is attempted. -/
theorem C7_request_to_unknown_user_not_found (st : ServerState)
    (request_id user_id friend_id : String)
    (h : dictContains st.users_db friend_id = false) :
    send_friend_request st request_id user_id friend_id =
      (st, [], ApiResult.httpError 404 "User not found") := by
  unfold send_friend_request
  rw [if_pos h]

theorem C7_request_to_unknown_user_not_found_witness :
    send_friend_request c4State "r2" "a" "z" =
      (c4State, [], ApiResult.httpError 404 "User not found") :=
  C7_request_to_unknown_user_not_found c4State "r2" "a" "z" (by decide)

/-- The two-user scenario state of C8, built through the endpoints themselves:
users `"a"` and `"b"` created, conversation `"c"` created with participants
`["a", "b"]`, then both users connected. -/
def c8State : ServerState :=
  let s1 := (create_user initState "a" "A").1
  let s2 := (create_user s1 "b" "B").1
  let s3 := (create_conversation s2 "c" "a" "b").1
  let s4 := { s3 with manager := s3.manager.connect "a" 1 }
  { s4 with manager := s4.manager.connect "b" 2 }

/-- C8: in the two-user scenario (users `"a"`, `"b"`; conversation `"c"` with
participants `["a", "b"]`; both connected), when `"a"` sends the frame
`"hi"`, the only push attempt is the single text `"a: hi"` to `"b"`'s
connection, and the conversation's history afterwards is exactly the
one-element sequence `["a: hi"]`, whose message carries the sender tag
`"a"`. -/
theorem C8_two_user_chat_scenario :
    (chatStep c8State "c" "a" "hi").2 = [("b", "a: hi")] ∧
    dictLookup (chatStep c8State "c" "a" "hi").1.conversations_db "c" =
      some { id := "c", participants := ["a", "b"], messages := ["a: hi"] } := by
  decide

/-- C9: friendship symmetry is an invariant of every reachable server state —
reachability covers every state-mutating entry point of the module, the
partially-failing paths of `accept_friend_request` included — so for all
users `a` and `b`, `a` is in `b`'s friend list iff `b` is in `a`'s. -/
theorem C9_friend_symmetry_invariant (st : ServerState) (h : Reachable st)
    (a b : String) :
    a ∈ friendsOf st.friends_db b ↔ b ∈ friendsOf st.friends_db a :=
  (reachable_inv h).friend_sym a b

/-- Intermediate states of the C9 witness run: create `"a"`, create `"b"`,
send a request from `"a"` to `"b"`, accept it as `"b"`. -/
def c9s1 : ServerState := (create_user initState "a" "A").1

def c9s2 : ServerState := (create_user c9s1 "b" "B").1

def c9s3 : ServerState := (send_friend_request c9s2 "r" "a" "b").1

def c9s4 : ServerState := (accept_friend_request c9s3 "b" "r").1

theorem C9_friend_symmetry_invariant_witness :
    "a" ∈ friendsOf c9s4.friends_db "b" ↔ "b" ∈ friendsOf c9s4.friends_db "a" :=
  C9_friend_symmetry_invariant c9s4
    (Reachable.step
      (Reachable.step
        (Reachable.step
          (Reachable.step Reachable.init
            (Step.createUser initState "a" "A" (by decide)))
          (Step.createUser c9s1 "b" "B" (by decide)))
        (Step.sendFriendRequest c9s2 "r" "a" "b"))
      (Step.acceptFriendRequest c9s3 "b" "r"))
    "a" "b"

/-- C10 (implicit): calling `send_friend_request` with an unknown sender but a
known recipient stores the `FriendRequest` record and only then fails — the
notification step reads `users_db[user_id].name`, raising `KeyError` — so the
record remains in the friend-request table after the failed call: the error
path mutates state and the operation is not atomic. -/
theorem C10_unknown_sender_leaves_request_record (st : ServerState)
    (request_id user_id friend_id : String)
    (hfid : dictContains st.users_db friend_id = true)
    (huid : dictLookup st.users_db user_id = none) :
    (send_friend_request st request_id user_id friend_id).2.2 =
      ApiResult.keyError user_id ∧
    dictLookup
        (send_friend_request st request_id user_id friend_id).1.friend_requests_db
        request_id =
      some { id := request_id, from_user := user_id, to_user := friend_id } := by
  have hmain : send_friend_request st request_id user_id friend_id =
      ({ st with
           friend_requests_db :=
             dictInsert st.friend_requests_db request_id
               { id := request_id, from_user := user_id, to_user := friend_id } },
       [], ApiResult.keyError user_id) := by
    unfold send_friend_request
    rw [if_neg (by simp [hfid])]
    dsimp only
    rw [huid]
  rw [hmain]
  exact ⟨rfl, dictLookup_insert_self _ _ _⟩

theorem C10_unknown_sender_leaves_request_record_witness :
    (send_friend_request c4State "r2" "x" "b").2.2 = ApiResult.keyError "x" ∧
    dictLookup (send_friend_request c4State "r2" "x" "b").1.friend_requests_db
        "r2" =
      some { id := "r2", from_user := "x", to_user := "b" } :=
  C10_unknown_sender_leaves_request_record c4State "r2" "x" "b"
    (by decide) (by decide)
